import Mathlib

/-!
Shallow embedding of `src/bin/fetch-rendered.py` (js-web-renderer).

The program drives a headless-Chromium Selenium session:
`_fetch_rendered_inner` runs the sequential action pipeline against a
driver, `fetch_with_timeout` supervises it under a hard wall-clock
deadline (creating the driver itself and SIGKILLing chromedriver on
expiry), and `__main__` parses CLI arguments and maps outcomes to exit
codes.

External effects (Selenium driver calls, sleeps, stderr prints) are
modelled as an event trace plus a stateless backend oracle that decides,
for each driver call, whether it succeeds (and with what value) or
raises.  Python exceptions are `Except String`; machine ints are `Nat`
(the CLI only ever produces nonnegative timeouts in the modelled
behaviours, and `int(t * 0.6) = 3*t/5` and `int(t * 0.25) = t/4` hold
for every nonnegative int `t` in the program's range).
-/

namespace JsWebRenderer

/-! ### Sub-timeout derivation (fetch_with_timeout, lines 247-249)

`page_load_timeout = kwargs.pop("_page_load_timeout", int(total_timeout * 0.6))`
`script_timeout    = kwargs.pop("_script_timeout",    min(15, int(total_timeout * 0.25)))`

Python `int()` on a nonnegative float truncates; for every nonnegative
integer `t`, `int(t * 0.6) = (3 * t) / 5` and `int(t * 0.25) = t / 4`
in integer division. -/

def pageLoadTimeoutOf (total : Nat) : Nat := 3 * total / 5

def scriptTimeoutOf (total : Nat) : Nat := min 15 (total / 4)

/-- The spec's words for the page-load sub-timeout: `round(0.6 * total)`,
rounding to the nearest integer. Used only to compare against the
code-derived `pageLoadTimeoutOf`. -/
def specPageLoadTimeout (total : Nat) : Int := round ((3 * total : ℚ) / 5)

/-- The spec's words for the script sub-timeout: `min(15, round(0.25 * total))`. -/
def specScriptTimeout (total : Nat) : Int := min 15 (round ((total : ℚ) / 4))

/-! ### Network (performance) log parsing (_fetch_rendered_inner, lines 162-188)

Each raw performance-log entry is `json.loads(entry["message"])["message"]`;
a `JSONDecodeError` or `KeyError` there skips the entry (`continue`).
A successfully decoded message yields `method`, and `params` whose
`request` / `response` sub-objects are read with defaulting `.get`
calls that never raise. -/

/-- Python `params.get("request", {})` with its defaulted fields. -/
structure ReqData where
  url : String := ""
  method : String := ""
  resourceType : String := ""
deriving Repr, DecidableEq

/-- Python `params.get("response", {})` with its defaulted fields. -/
structure RespData where
  url : String := ""
  status : Nat := 0
  mimeType : String := ""
  headers : List (String × String) := []
deriving Repr, DecidableEq

/-- One raw entry of `driver.get_log("performance")`: either its
`message` field fails to decode / lacks the inner `"message"` key
(`malformed`), or it decodes to a message with a `method` string and
defaulted request/response params. -/
inductive RawPerfEntry where
  | malformed
  | msg (method : String) (req : ReqData) (resp : RespData)
deriving Repr, DecidableEq

/-- One element of the `network_requests` list built by the loop; the
code tags each dict it appends with a `"type"` key. -/
structure NetworkEntry where
  type : String
  url : String
  method : String := ""
  resourceType : String := ""
  status : Nat := 0
  mimeType : String := ""
  headers : List (String × String) := []
deriving Repr, DecidableEq

/-- The body of the `for entry in perf_logs` loop for one entry:
`none` means the entry contributes nothing to `network_requests`
(malformed, or a method other than the two handled ones). -/
def parsePerfEntry : RawPerfEntry → Option NetworkEntry
  | .malformed => none
  | .msg method req resp =>
    if method = "Network.requestWillBeSent" then
      some { type := "request", url := req.url, method := req.method,
             resourceType := req.resourceType }
    else if method = "Network.responseReceived" then
      some { type := "response", url := resp.url, status := resp.status,
             mimeType := resp.mimeType, headers := resp.headers }
    else
      none

/-- The whole collection loop: `network_requests` accumulated in order. -/
def collectNetworkRequests (perfLogs : List RawPerfEntry) : List NetworkEntry :=
  perfLogs.filterMap parsePerfEntry

/-! ### The action pipeline `_fetch_rendered_inner` (lines 69-205)

Its parameters (minus the private `_driver` / sub-timeout plumbing,
which is modelled explicitly below). `profile_dir` only affects Chrome
option construction and is carried for completeness. -/

structure FetchConfig where
  url : String
  waitSeconds : Nat := 5
  captureConsole : Bool := false
  screenshotPath : Option String := none
  width : Nat := 1280
  height : Nat := 900
  execJs : Option String := none
  postJs : Option String := none
  captureNetwork : Bool := false
  typeActions : List (String × String) := []
  clickActions : List String := []
  postWaitSeconds : Nat := 0
  profileDir : Option String := none

/-- Python truthiness of an optional string (`if exec_js:` etc.):
`None` and the empty string are both falsy. -/
def strTruthy : Option String → Option String
  | none => none
  | some c => if c = "" then none else some c

/-- One entry of `driver.get_log("browser")`. -/
structure LogEntry where
  level : String := "INFO"
  message : String := ""
deriving Repr, DecidableEq

/-- The observable external operations issued by the pipeline, in
program order: every Selenium driver call, sleep, and the
`finally`-block quit. One constructor per call site. -/
inductive Event where
  | createDriver
  | setWindowSize (w h : Nat)
  | setPageLoadTimeout (t : Nat)
  | setScriptTimeout (t : Nat)
  | navigate (url : String)
  | execPreJs (code : String)
  | sleepWait (secs : Nat)
  | waitPresence (sel : String)
  | clearElem (sel : String)
  | sendKeys (sel val : String)
  | waitClickable (sel : String)
  | clickElem (sel : String)
  | execPostJs (code : String)
  | sleepPostWait (secs : Nat)
  | readPageSource
  | readCurrentUrl
  | readBrowserLog
  | readPerformanceLog
  | execScrollHeight
  | resizeForScreenshot (w h : Nat)
  | sleepResize
  | saveScreenshot (path : String)
  | quitDriver
deriving Repr, DecidableEq

/-- Stateless oracle deciding, for each external call, whether it
succeeds (with which value) or raises (with which message). -/
structure Backend where
  createDriver : Except String Unit
  setWindowSize : Nat → Nat → Except String Unit
  setPageLoadTimeout : Nat → Except String Unit
  setScriptTimeout : Nat → Except String Unit
  navigate : String → Except String Unit
  execScript : String → Except String (Option String)
  waitPresence : String → Except String Unit
  clearElem : String → Except String Unit
  sendKeys : String → String → Except String Unit
  waitClickable : String → Except String Unit
  clickElem : String → Except String Unit
  pageSource : Except String String
  currentUrl : Except String String
  browserLog : Except String (List LogEntry)
  perfLog : Except String (List RawPerfEntry)
  scrollHeight : Except String Nat
  saveScreenshot : String → Except String Unit
  quit : Except String Unit

/-- Accumulated observable state of one run: the event trace and the
warnings printed to stderr by the recoverable interaction handlers. -/
structure St where
  events : List Event := []
  warnings : List String := []
deriving Repr, DecidableEq

def push (s : St) (e : Event) : St := { s with events := s.events ++ [e] }

def pushWarn (s : St) (w : String) : St := { s with warnings := s.warnings ++ [w] }

/-- Models `print(f"[type error] {selector}: {e}", file=sys.stderr)`. -/
def typeErrorMsg (sel e : String) : String := "[type error] " ++ sel ++ ": " ++ e

/-- Models `print(f"[click error] {selector}: {e}", file=sys.stderr)`. -/
def clickErrorMsg (sel e : String) : String := "[click error] " ++ sel ++ ": " ++ e

/-- Run one fallible external call: record its event, abort the chain
on an exception (no `except` in `_fetch_rendered_inner`'s body). -/
def stepE (s : St) (ev : Event) (r : Except String α)
    (k : α → St → St × Except String β) : St × Except String β :=
  let s1 := push s ev
  match r with
  | .error e => (s1, .error e)
  | .ok a => k a s1

/-- An optional `execute_script` stage (`if exec_js:` / `if post_js:`). -/
def optStep (s : St) (copt : Option String) (f : String → Event × Except String (Option String))
    (k : St → St × Except String β) : St × Except String β :=
  match copt with
  | none => k s
  | some code => stepE s (f code).1 (f code).2 fun _ s1 => k s1

/-- A flag-guarded read (`if capture_console:` / `if capture_network:`),
yielding the Python-side default when the flag is off. -/
def condStep (s : St) (flag : Bool) (ev : Event) (r : Except String α) (dflt : α)
    (k : α → St → St × Except String β) : St × Except String β :=
  if flag then stepE s ev r k else k dflt s

/-- The `for selector, value in type_actions` loop (lines 114-124):
each iteration is a `try` block — wait for presence, clear, send keys —
whose failure at any point prints a `[type error]` warning and
continues with the next action. -/
def runTypeActions (b : Backend) : List (String × String) → St → St
  | [], s => s
  | (sel, val) :: rest, s =>
    let s1 := push s (.waitPresence sel)
    match b.waitPresence sel with
    | .error e => runTypeActions b rest (pushWarn s1 (typeErrorMsg sel e))
    | .ok _ =>
      let s2 := push s1 (.clearElem sel)
      match b.clearElem sel with
      | .error e => runTypeActions b rest (pushWarn s2 (typeErrorMsg sel e))
      | .ok _ =>
        let s3 := push s2 (.sendKeys sel val)
        match b.sendKeys sel val with
        | .error e => runTypeActions b rest (pushWarn s3 (typeErrorMsg sel e))
        | .ok _ => runTypeActions b rest s3

/-- The `for selector in click_actions` loop (lines 127-136): wait for
clickability then click, failures printed as `[click error]` warnings,
never aborting. -/
def runClickActions (b : Backend) : List String → St → St
  | [], s => s
  | sel :: rest, s =>
    let s1 := push s (.waitClickable sel)
    match b.waitClickable sel with
    | .error e => runClickActions b rest (pushWarn s1 (clickErrorMsg sel e))
    | .ok _ =>
      let s2 := push s1 (.clickElem sel)
      match b.clickElem sel with
      | .error e => runClickActions b rest (pushWarn s2 (clickErrorMsg sel e))
      | .ok _ => runClickActions b rest s2

/-- The `(html, console_logs, network_requests)` tuple returned by
`_fetch_rendered_inner` (line 198). -/
structure FetchResult where
  html : String
  consoleLogs : List LogEntry := []
  networkRequests : List NetworkEntry := []
deriving Repr, DecidableEq

/-- The body of `_fetch_rendered_inner`'s `try` block (lines 93-198),
run against an already-available driver, starting from trace state
`s0`: window size, the two sub-timeouts, navigation, optional pre-wait
script, the fixed wait, type actions, click actions, optional post
script, optional post wait, collection (source, current URL, console
log if captured, performance log if captured), and the screenshot
block last. -/
def innerCore (cfg : FetchConfig) (b : Backend) (plt stTO : Nat) (s0 : St) :
    St × Except String FetchResult :=
  stepE s0 (.setWindowSize cfg.width cfg.height) (b.setWindowSize cfg.width cfg.height) fun _ s =>
  stepE s (.setPageLoadTimeout plt) (b.setPageLoadTimeout plt) fun _ s =>
  stepE s (.setScriptTimeout stTO) (b.setScriptTimeout stTO) fun _ s =>
  stepE s (.navigate cfg.url) (b.navigate cfg.url) fun _ s =>
  optStep s (strTruthy cfg.execJs) (fun code => (.execPreJs code, b.execScript code)) fun s =>
  let s := push s (.sleepWait cfg.waitSeconds)
  let s := runTypeActions b cfg.typeActions s
  let s := runClickActions b cfg.clickActions s
  optStep s (strTruthy cfg.postJs) (fun code => (.execPostJs code, b.execScript code)) fun s =>
  let s := if cfg.postWaitSeconds > 0 then push s (.sleepPostWait cfg.postWaitSeconds) else s
  stepE s .readPageSource b.pageSource fun html s =>
  stepE s .readCurrentUrl b.currentUrl fun _ s =>
  condStep s cfg.captureConsole .readBrowserLog b.browserLog [] fun consoleLogs s =>
  condStep s cfg.captureNetwork .readPerformanceLog b.perfLog [] fun perfLogs s =>
  let res : FetchResult :=
    { html := html, consoleLogs := consoleLogs,
      networkRequests := collectNetworkRequests perfLogs }
  match strTruthy cfg.screenshotPath with
  | none => (s, .ok res)
  | some path =>
    stepE s .execScrollHeight b.scrollHeight fun totalHeight s =>
    stepE s (.resizeForScreenshot cfg.width totalHeight) (b.setWindowSize cfg.width totalHeight) fun _ s =>
    let s := push s .sleepResize
    stepE s (.saveScreenshot path) (b.saveScreenshot path) fun _ s =>
    (s, .ok res)

/-- Models `_fetch_rendered_inner` with its driver-ownership logic (lines
86-91 and the `finally` block, lines 200-205). `driverPassed` is
whether a pre-created `_driver` was supplied (as `fetch_with_timeout`
always does): then `driver_owned` is false and the `finally` block does
NOT quit the driver. When no driver is passed, the function creates
its own (line 91) and the `finally` block quits it, swallowing any
exception from the quit attempt. -/
def fetchRenderedInner (cfg : FetchConfig) (b : Backend) (plt stTO : Nat)
    (driverPassed : Bool) : St × Except String FetchResult :=
  if driverPassed then
    innerCore cfg b plt stTO {}
  else
    let s0 := push {} .createDriver
    match b.createDriver with
    | .error e => (s0, .error e)
    | .ok _ =>
      let (s, r) := innerCore cfg b plt stTO s0
      (push s .quitDriver, r)

/-! ### Advisory memory check (fetch_with_timeout, lines 227-245)

`open("/proc/meminfo")` then `key, val = line.split(":", 1)` and
`meminfo[key.strip()] = int(val.split()[0])` per line; any exception
anywhere in the `try` is swallowed (`except Exception: pass`). -/

/-- One loop iteration: `key, val = line.split(":", 1)` raises
`ValueError` without a colon; `int(val.split()[0])` raises `IndexError`
on an empty remainder and `ValueError` on a non-integer token. -/
def parseMemLine (line : String) : Except String (String × Int) :=
  match line.splitOn ":" with
  | [] => .error "ValueError"
  | [_] => .error "ValueError"
  | key :: rest =>
    match ((String.intercalate ":" rest).split Char.isWhitespace).filter (fun w => w ≠ "") with
    | [] => .error "IndexError"
    | w :: _ =>
      match w.toInt? with
      | none => .error "ValueError"
      | some n => .ok (key.trim, n)

/-- The whole `for line in f` loop: first raise aborts the `try`. -/
def parseMemInfo : List String → Except String (List (String × Int))
  | [] => .ok []
  | line :: rest =>
    match parseMemLine line with
    | .error e => .error e
    | .ok kv =>
      match parseMemInfo rest with
      | .error e => .error e
      | .ok m => .ok (kv :: m)

/-- Python dict lookup over insertion order: the LAST binding of a key
wins (`meminfo[key] = ...` overwrites). -/
def dictGet (m : List (String × Int)) (k : String) : Option Int :=
  (m.reverse.find? (fun kv => kv.1 = k)).map (fun kv => kv.2)

/-- Python `meminfo.get("MemAvailable", meminfo.get("MemFree", 0))`, in kB. -/
def memAvailableKb (m : List (String × Int)) : Int :=
  match dictGet m "MemAvailable" with
  | some v => v
  | none =>
    match dictGet m "MemFree" with
    | some v => v
    | none => 0

/-- The `[warn] only ...MB of RAM available ...` message; the real
message interpolates the MB figure and the 512MB threshold. -/
def lowMemWarnMsg : String := "[warn] low memory for Chrome"

/-- The advisory check as a whole: given the result of reading
/proc/meminfo (`.error` = the open/read itself raised), the warnings it
prints. `mem_available_mb < 512` compares `kB/1024 < 512`; float
division by 1024 is exact, so this is exactly `kB < 512 * 1024`. Every
failure path produces no warning and no other effect. -/
def memAdvisoryWarnings (memLines : Except String (List String)) : List String :=
  match memLines with
  | .error _ => []
  | .ok lines =>
    match parseMemInfo lines with
    | .error _ => []
    | .ok m => if memAvailableKb m < 512 * 1024 then [lowMemWarnMsg] else []

/-! ### The timeout supervisor `fetch_with_timeout` (lines 208-305) -/

/-- The outcome of one supervised fetch as the spec's `Outcome`:
`completed` when the worker finished with a result, `failed` when it
finished with an exception (re-raised at line 303) or the supervisor's
own driver construction raised, `expired` for the `TimeoutError` raised
on the timeout path (line 297). -/
inductive Outcome where
  | completed (r : FetchResult)
  | failed (e : String)
  | expired
deriving Repr, DecidableEq

def Outcome.isCompleted : Outcome → Bool
  | .completed _ => true
  | _ => false

/-- A destroy operation issued against the supervisor-created driver:
`driver.service.process.kill()` or `driver.quit()`. -/
inductive DriverOp where
  | kill
  | quit
deriving Repr, DecidableEq

/-- The destroy operations among a worker trace: only the
`finally`-block `driver.quit()` can appear there. -/
def destroyOpsOf (evs : List Event) : List DriverOp :=
  evs.filterMap fun ev =>
    match ev with
    | .quitDriver => some DriverOp.quit
    | _ => none

/-- Models `try: f() except Exception: pass` — the attempt is made, any
outcome (success or raise) is discarded. -/
def bestEffort (r : Except String Unit) : Unit :=
  match r with
  | .ok _ => ()
  | .error _ => ()

/-- The scheduling facts outside the model's control: whether the
worker thread is still alive when `thread.join(timeout=total_timeout)`
returns, and what the two best-effort destroy calls on the timeout path
would raise. -/
structure SupervisorBehavior where
  workerHangs : Bool
  killResult : Except String Unit := .ok ()
  quitResult : Except String Unit := .ok ()

/-- Models `print(f"[timeout] Hard timeout of {total_timeout}s exceeded ...")`. -/
def timeoutWarnMsg (totalTimeout : Nat) (url : String) : String :=
  "[timeout] Hard timeout of " ++ toString totalTimeout ++ "s exceeded for " ++ url

/-- What one `fetch_with_timeout` invocation is observed to do. -/
structure SupRun where
  outcome : Outcome
  events : List Event
  driverOps : List DriverOp
  warnings : List String
deriving Repr, DecidableEq

/-- Models `fetch_with_timeout` (lines 208-305): advisory memory check;
sub-timeout derivation (no explicit overrides supplied); driver
construction IN THE CALLER, before the worker thread exists; then the
worker runs `_fetch_rendered_inner` with `_driver` passed while the
caller joins with `timeout=total_timeout`.  Normal path: re-raise the
worker's stored exception or return its result; no further driver
operation is performed there (the code's comment at line 301 claims the
inner `finally` already quit the driver).  Timeout path: kill the
chromedriver process, best-effort quit, both swallowed, then raise
`TimeoutError` — without waiting on the worker again. -/
def fetchWithTimeout (memLines : Except String (List String)) (totalTimeout : Nat)
    (cfg : FetchConfig) (b : Backend) (sb : SupervisorBehavior) : SupRun :=
  let memWarnings := memAdvisoryWarnings memLines
  let plt := pageLoadTimeoutOf totalTimeout
  let stTO := scriptTimeoutOf totalTimeout
  match b.createDriver with
  | .error e =>
    { outcome := .failed e, events := [.createDriver], driverOps := [],
      warnings := memWarnings }
  | .ok _ =>
    if sb.workerHangs then
      let _ := bestEffort sb.killResult
      let _ := bestEffort sb.quitResult
      { outcome := .expired, events := [.createDriver],
        driverOps := [DriverOp.kill, DriverOp.quit],
        warnings := memWarnings ++ [timeoutWarnMsg totalTimeout cfg.url] }
    else
      let (s, r) := fetchRenderedInner cfg b plt stTO true
      { outcome :=
          match r with
          | .ok res => .completed res
          | .error e => .failed e,
        events := Event.createDriver :: s.events,
        driverOps := destroyOpsOf s.events,
        warnings := memWarnings ++ s.warnings }

/-- Wall-clock accounting of `fetch_with_timeout`, abstracting each
region to a duration: the advisory check and `webdriver.Chrome(...)`
(line 261) run in the caller BEFORE the worker thread is started and
the deadline clock begins; `thread.join(timeout=total_timeout)` blocks
for `workerDuration` if the worker finishes sooner, else for
`totalTimeout`; the timeout path then spends `killSlack` on
kill/quit/raise. -/
def supervisorReturnTime (totalTimeout memCheckDuration createDriverDuration
    workerDuration killSlack : Nat) : Nat :=
  memCheckDuration + createDriverDuration +
    (if workerDuration ≤ totalTimeout then workerDuration else totalTimeout + killSlack)

/-! ### The CLI `__main__` block (lines 355-504) -/

/-- The mutable option state of the argument-parsing loop. -/
structure CliConfig where
  url : Option String := none
  showConsole : Bool := false
  onlyConsole : Bool := false
  screenshotPath : Option String := none
  onlyScreenshot : Bool := false
  waitSeconds : Int := 5
  width : Int := 1280
  height : Int := 900
  execJs : Option String := none
  postJs : Option String := none
  captureNetwork : Bool := false
  onlyNetwork : Bool := false
  typeActions : List (String × String) := []
  clickActions : List String := []
  postWaitSeconds : Int := 0
  profileDir : Option String := none
  totalTimeout : Int := 60
deriving Repr, DecidableEq

/-- Python `arg.startswith("-")`: whether the first character is a
dash. -/
def startsWithDash (s : String) : Bool :=
  match s.data with
  | [] => false
  | c :: _ => c = '-'

/-- The `while i < len(sys.argv)` loop over the arguments after the
program name. `readFile` is the filesystem oracle for `--exec-js-file`
and `--post-js-file`; `.error` anywhere models an uncaught Python
exception (`ValueError` from `int()`, `IOError` from `open()`), which
aborts the script. A value-taking flag in last position matches no
branch (its `i + 1 < len(sys.argv)` guard fails) and is skipped; a
`--type` value without `::` prints an error but continues. Python
`int()` is modelled by `String.toInt?` (signs accepted, stray
whitespace not — no modelled behaviour depends on the difference). -/
def parseArgs (readFile : String → Except String String) :
    List String → CliConfig → Except String CliConfig
  | [], c => .ok c
  | arg :: rest, c =>
    if arg = "--console" ∨ arg = "-c" then
      parseArgs readFile rest { c with showConsole := true }
    else if arg = "--only-console" then
      parseArgs readFile rest { c with showConsole := true, onlyConsole := true }
    else if arg = "--screenshot" then
      match rest with
      | v :: rest2 => parseArgs readFile rest2 { c with screenshotPath := some v }
      | [] => .ok c
    else if arg = "--only-screenshot" then
      parseArgs readFile rest { c with onlyScreenshot := true }
    else if arg = "--wait" then
      match rest with
      | v :: rest2 =>
        match v.toInt? with
        | none => .error "ValueError"
        | some n => parseArgs readFile rest2 { c with waitSeconds := n }
      | [] => .ok c
    else if arg = "--width" then
      match rest with
      | v :: rest2 =>
        match v.toInt? with
        | none => .error "ValueError"
        | some n => parseArgs readFile rest2 { c with width := n }
      | [] => .ok c
    else if arg = "--height" then
      match rest with
      | v :: rest2 =>
        match v.toInt? with
        | none => .error "ValueError"
        | some n => parseArgs readFile rest2 { c with height := n }
      | [] => .ok c
    else if arg = "--exec-js" then
      match rest with
      | v :: rest2 => parseArgs readFile rest2 { c with execJs := some v }
      | [] => .ok c
    else if arg = "--exec-js-file" then
      match rest with
      | v :: rest2 =>
        match readFile v with
        | .error e => .error e
        | .ok content => parseArgs readFile rest2 { c with execJs := some content }
      | [] => .ok c
    else if arg = "--post-js" then
      match rest with
      | v :: rest2 => parseArgs readFile rest2 { c with postJs := some v }
      | [] => .ok c
    else if arg = "--post-js-file" then
      match rest with
      | v :: rest2 =>
        match readFile v with
        | .error e => .error e
        | .ok content => parseArgs readFile rest2 { c with postJs := some content }
      | [] => .ok c
    else if arg = "--post-wait" then
      match rest with
      | v :: rest2 =>
        match v.toInt? with
        | none => .error "ValueError"
        | some n => parseArgs readFile rest2 { c with postWaitSeconds := n }
      | [] => .ok c
    else if arg = "--network-log" then
      parseArgs readFile rest { c with captureNetwork := true }
    else if arg = "--only-network" then
      parseArgs readFile rest { c with captureNetwork := true, onlyNetwork := true }
    else if arg = "--type" then
      match rest with
      | v :: rest2 =>
        match v.splitOn "::" with
        | [] => parseArgs readFile rest2 c
        | [_] => parseArgs readFile rest2 c
        | sel :: parts =>
          parseArgs readFile rest2
            { c with typeActions := c.typeActions ++ [(sel, String.intercalate "::" parts)] }
      | [] => .ok c
    else if arg = "--click" then
      match rest with
      | v :: rest2 => parseArgs readFile rest2 { c with clickActions := c.clickActions ++ [v] }
      | [] => .ok c
    else if arg = "--profile" then
      match rest with
      | v :: rest2 => parseArgs readFile rest2 { c with profileDir := some v }
      | [] => .ok c
    else if arg = "--timeout" then
      match rest with
      | v :: rest2 =>
        match v.toInt? with
        | none => .error "ValueError"
        | some n => parseArgs readFile rest2 { c with totalTimeout := n }
      | [] => .ok c
    else if ¬ startsWithDash arg then
      parseArgs readFile rest { c with url := some arg }
    else
      parseArgs readFile rest c

/-! ### Characterizations used by the theorems -/

/-- The events one run of the type-action loop appends: for each
configured action, the attempt's events up to and including the first
failing call. -/
def typeActionEvents (b : Backend) : List (String × String) → List Event
  | [] => []
  | (sel, val) :: rest =>
    (match b.waitPresence sel with
     | .error _ => [.waitPresence sel]
     | .ok _ =>
       match b.clearElem sel with
       | .error _ => [.waitPresence sel, .clearElem sel]
       | .ok _ =>
         match b.sendKeys sel val with
         | .error _ => [.waitPresence sel, .clearElem sel, .sendKeys sel val]
         | .ok _ => [.waitPresence sel, .clearElem sel, .sendKeys sel val])
      ++ typeActionEvents b rest

/-- The warnings one run of the type-action loop prints. -/
def typeWarningsOf (b : Backend) : List (String × String) → List String
  | [] => []
  | (sel, val) :: rest =>
    (match b.waitPresence sel with
     | .error e => [typeErrorMsg sel e]
     | .ok _ =>
       match b.clearElem sel with
       | .error e => [typeErrorMsg sel e]
       | .ok _ =>
         match b.sendKeys sel val with
         | .error e => [typeErrorMsg sel e]
         | .ok _ => [])
      ++ typeWarningsOf b rest

/-- The events one run of the click-action loop appends. -/
def clickActionEvents (b : Backend) : List String → List Event
  | [] => []
  | sel :: rest =>
    (match b.waitClickable sel with
     | .error _ => [.waitClickable sel]
     | .ok _ =>
       match b.clickElem sel with
       | .error _ => [.waitClickable sel, .clickElem sel]
       | .ok _ => [.waitClickable sel, .clickElem sel])
      ++ clickActionEvents b rest

/-- The warnings one run of the click-action loop prints. -/
def clickWarningsOf (b : Backend) : List String → List String
  | [] => []
  | sel :: rest =>
    (match b.waitClickable sel with
     | .error e => [clickErrorMsg sel e]
     | .ok _ =>
       match b.clickElem sel with
       | .error e => [clickErrorMsg sel e]
       | .ok _ => [])
      ++ clickWarningsOf b rest

/-- The spec's pipeline stages (§4.2 of the spec / claim C6). -/
inductive Stage where
  | navigate
  | preScript
  | fixedWait
  | typeAction (sel : String)
  | clickAction (sel : String)
  | postScript
  | postWait
  | collectSource
  | collectConsole
  | collectNetwork
  | screenshot
deriving Repr, DecidableEq

/-- Which pipeline stage an event marks the start of, if any: the
probe/read that begins the stage carries the tag, auxiliary calls
inside a stage carry none. -/
def stageOf : Event → Option Stage
  | .navigate _ => some Stage.navigate
  | .execPreJs _ => some Stage.preScript
  | .sleepWait _ => some Stage.fixedWait
  | .waitPresence sel => some (Stage.typeAction sel)
  | .waitClickable sel => some (Stage.clickAction sel)
  | .execPostJs _ => some Stage.postScript
  | .sleepPostWait _ => some Stage.postWait
  | .readPageSource => some Stage.collectSource
  | .readBrowserLog => some Stage.collectConsole
  | .readPerformanceLog => some Stage.collectNetwork
  | .saveScreenshot _ => some Stage.screenshot
  | _ => none

/-- The fixed stage order stated by the spec (claim C6), built from the
configuration by the spec's words: navigate, pre-wait script, fixed
wait, ordered type actions, ordered click actions, post-wait script,
post-wait delay, collection (source then console then network logs),
and screenshot last, each optional stage skipped when not configured. -/
def expectedStages (cfg : FetchConfig) : List Stage :=
  [Stage.navigate]
    ++ (match strTruthy cfg.execJs with
        | some _ => [Stage.preScript]
        | none => [])
    ++ [Stage.fixedWait]
    ++ cfg.typeActions.map (fun a => Stage.typeAction a.1)
    ++ cfg.clickActions.map Stage.clickAction
    ++ (match strTruthy cfg.postJs with
        | some _ => [Stage.postScript]
        | none => [])
    ++ (if cfg.postWaitSeconds > 0 then [Stage.postWait] else [])
    ++ [Stage.collectSource]
    ++ (if cfg.captureConsole then [Stage.collectConsole] else [])
    ++ (if cfg.captureNetwork then [Stage.collectNetwork] else [])
    ++ (match strTruthy cfg.screenshotPath with
        | some _ => [Stage.screenshot]
        | none => [])

/-- A backend on which no fatal external call raises (interaction
calls — presence/clickability waits, clear, send keys, click — remain
unconstrained: their failures are the recoverable ones). -/
structure FatalOk (b : Backend) : Prop where
  createDriver : b.createDriver = .ok ()
  setWindowSize : ∀ w h, b.setWindowSize w h = .ok ()
  setPageLoadTimeout : ∀ t, b.setPageLoadTimeout t = .ok ()
  setScriptTimeout : ∀ t, b.setScriptTimeout t = .ok ()
  navigate : ∀ u, b.navigate u = .ok ()
  execScript : ∀ c, ∃ v, b.execScript c = .ok v
  pageSource : ∃ v, b.pageSource = .ok v
  currentUrl : ∃ v, b.currentUrl = .ok v
  browserLog : ∃ v, b.browserLog = .ok v
  perfLog : ∃ v, b.perfLog = .ok v
  scrollHeight : ∃ v, b.scrollHeight = .ok v
  saveScreenshot : ∀ p, b.saveScreenshot p = .ok ()

/-- A backend where every call succeeds: the instantly-responding
rendering session of the spec's end-to-end property. -/
def okBackend : Backend where
  createDriver := .ok ()
  setWindowSize := fun _ _ => .ok ()
  setPageLoadTimeout := fun _ => .ok ()
  setScriptTimeout := fun _ => .ok ()
  navigate := fun _ => .ok ()
  execScript := fun _ => .ok none
  waitPresence := fun _ => .ok ()
  clearElem := fun _ => .ok ()
  sendKeys := fun _ _ => .ok ()
  waitClickable := fun _ => .ok ()
  clickElem := fun _ => .ok ()
  pageSource := .ok "<html><body>rendered</body></html>"
  currentUrl := .ok "http://example"
  browserLog := .ok []
  perfLog := .ok []
  scrollHeight := .ok 900
  saveScreenshot := fun _ => .ok ()
  quit := .ok ()

/-- okBackend with a selector that never resolves within the 10s poll:
every element-presence wait raises, everything fatal still succeeds. -/
def noElementBackend : Backend :=
  { okBackend with
      waitPresence := fun _ => .error "no such element",
      waitClickable := fun _ => .error "not clickable" }

/-- How the `fetch_with_timeout` call inside the CLI's `try` resolves. -/
inductive FetchCliOutcome where
  | success
  | timedOut
  | genericError
deriving Repr, DecidableEq

/-- The CLI exit code as a function of `sys.argv` (program name
included), the file oracle, and the fetch outcome: help or too few
arguments exit early (lines 356-358); a parse-time uncaught exception
makes the interpreter exit 1; a missing URL exits 1 (line 446);
otherwise `TimeoutError` exits 2, any other exception exits 1, and
falling off the end of the script exits 0 (lines 499-504). -/
def mainExitCode (argv : List String) (readFile : String → Except String String)
    (outcome : FetchCliOutcome) : Nat :=
  match argv with
  | [] => 1
  | [_] => 1
  | _ :: a1 :: rest =>
    if a1 = "-h" ∨ a1 = "--help" then 0
    else
      match parseArgs readFile (a1 :: rest) {} with
      | .error _ => 1
      | .ok c =>
        match c.url with
        | none => 1
        | some _ =>
          match outcome with
          | .success => 0
          | .timedOut => 2
          | .genericError => 1


/-- The drain-semantics collect reads among a trace, in order: the
`page_source` read and the two `get_log` reads. -/
def collectReadsOf (evs : List Event) : List Event :=
  evs.filterMap fun e =>
    match e with
    | .readPageSource => some Event.readPageSource
    | .readBrowserLog => some Event.readBrowserLog
    | .readPerformanceLog => some Event.readPerformanceLog
    | _ => none

/-! ## Supporting lemmas -/

theorem push_events (s : St) (e : Event) : (push s e).events = s.events ++ [e] := rfl

theorem push_warnings (s : St) (e : Event) : (push s e).warnings = s.warnings := rfl

theorem pushWarn_events (s : St) (w : String) : (pushWarn s w).events = s.events := rfl

theorem pushWarn_warnings (s : St) (w : String) :
    (pushWarn s w).warnings = s.warnings ++ [w] := rfl

theorem runTypeActions_spec (b : Backend) (l : List (String × String)) (s : St) :
    runTypeActions b l s =
      { events := s.events ++ typeActionEvents b l,
        warnings := s.warnings ++ typeWarningsOf b l } := by
  induction l generalizing s with
  | nil => simp [runTypeActions, typeActionEvents, typeWarningsOf]
  | cons a rest ih =>
    obtain ⟨sel, val⟩ := a
    simp only [runTypeActions, typeActionEvents, typeWarningsOf]
    cases b.waitPresence sel with
    | error e => simp [ih, push, pushWarn]
    | ok u =>
      cases b.clearElem sel with
      | error e => simp [ih, push, pushWarn]
      | ok u2 =>
        cases b.sendKeys sel val with
        | error e => simp [ih, push, pushWarn]
        | ok u3 => simp [ih, push, pushWarn]

theorem runClickActions_spec (b : Backend) (l : List String) (s : St) :
    runClickActions b l s =
      { events := s.events ++ clickActionEvents b l,
        warnings := s.warnings ++ clickWarningsOf b l } := by
  induction l generalizing s with
  | nil => simp [runClickActions, clickActionEvents, clickWarningsOf]
  | cons sel rest ih =>
    simp only [runClickActions, clickActionEvents, clickWarningsOf]
    cases b.waitClickable sel with
    | error e => simp [ih, push, pushWarn]
    | ok u =>
      cases b.clickElem sel with
      | error e => simp [ih, push, pushWarn]
      | ok u2 => simp [ih, push, pushWarn]

theorem destroyOpsOf_append (l1 l2 : List Event) :
    destroyOpsOf (l1 ++ l2) = destroyOpsOf l1 ++ destroyOpsOf l2 := by
  simp [destroyOpsOf]

theorem typeActionEvents_destroy_free (b : Backend) (l : List (String × String)) :
    destroyOpsOf (typeActionEvents b l) = [] := by
  induction l with
  | nil => rfl
  | cons a rest ih =>
    obtain ⟨sel, val⟩ := a
    simp only [typeActionEvents]
    cases b.waitPresence sel with
    | error e => simpa [destroyOpsOf] using ih
    | ok u =>
      cases b.clearElem sel with
      | error e => simpa [destroyOpsOf] using ih
      | ok u2 =>
        cases b.sendKeys sel val with
        | error e => simpa [destroyOpsOf] using ih
        | ok u3 => simpa [destroyOpsOf] using ih

theorem clickActionEvents_destroy_free (b : Backend) (l : List String) :
    destroyOpsOf (clickActionEvents b l) = [] := by
  induction l with
  | nil => rfl
  | cons sel rest ih =>
    simp only [clickActionEvents]
    cases b.waitClickable sel with
    | error e => simpa [destroyOpsOf] using ih
    | ok u =>
      cases b.clickElem sel with
      | error e => simpa [destroyOpsOf] using ih
      | ok u2 => simpa [destroyOpsOf] using ih

theorem typeActionEvents_no_quit (b : Backend) (l : List (String × String)) :
    ∀ a ∈ typeActionEvents b l,
      (match a with
        | Event.quitDriver => some DriverOp.quit
        | _ => none) = (none : Option DriverOp) := by
  intro a ha
  have h := typeActionEvents_destroy_free b l
  rw [destroyOpsOf, List.filterMap_eq_nil] at h
  exact h a ha

theorem clickActionEvents_no_quit (b : Backend) (l : List String) :
    ∀ a ∈ clickActionEvents b l,
      (match a with
        | Event.quitDriver => some DriverOp.quit
        | _ => none) = (none : Option DriverOp) := by
  intro a ha
  have h := clickActionEvents_destroy_free b l
  rw [destroyOpsOf, List.filterMap_eq_nil] at h
  exact h a ha

set_option maxHeartbeats 2000000 in
theorem innerCore_destroy (cfg : FetchConfig) (b : Backend) (plt stTO : Nat) (s0 : St) :
    destroyOpsOf (innerCore cfg b plt stTO s0).1.events = destroyOpsOf s0.events := by
  simp only [innerCore, stepE, optStep, condStep]
  repeat' split
  all_goals
    simp [push, runTypeActions_spec, runClickActions_spec, destroyOpsOf_append,
      destroyOpsOf]
  all_goals
    exact ⟨typeActionEvents_no_quit b cfg.typeActions,
      clickActionEvents_no_quit b cfg.clickActions⟩

/-! ## Claim theorems -/

/-- C2 (amended): with no explicit override, the derived sub-timeouts
truncate rather than round: `pageLoadTimeout = floor(0.6 * total)` and
`scriptTimeout = min(15, floor(0.25 * total))`; in particular `T=60`
yields 36 and 15, and `T=20` yields 12 and 5. -/
theorem subtimeouts_truncation (total : Nat) :
    pageLoadTimeoutOf total = ⌊(3 * total : ℚ) / 5⌋₊
    ∧ scriptTimeoutOf total = min 15 ⌊(total : ℚ) / 4⌋₊
    ∧ pageLoadTimeoutOf 60 = 36 ∧ scriptTimeoutOf 60 = 15
    ∧ pageLoadTimeoutOf 20 = 12 ∧ scriptTimeoutOf 20 = 5 := by
  refine ⟨?_, ?_, rfl, rfl, rfl, rfl⟩
  · rw [pageLoadTimeoutOf]
    rw [show ((3 * total : ℚ)) = ((3 * total : ℕ) : ℚ) by push_cast; ring]
    rw [show ((5 : ℚ)) = ((5 : ℕ) : ℚ) by norm_num]
    rw [Nat.floor_div_eq_div]
  · rw [scriptTimeoutOf]
    rw [show ((4 : ℚ)) = ((4 : ℕ) : ℚ) by norm_num]
    rw [Nat.floor_div_eq_div]

/-- C2 counterexample: at `total = 3` the code's page-load sub-timeout
is `int(1.8) = 1`, not `round(1.8) = 2` as the claim's formula states. -/
theorem subtimeout_round_counterexample :
    (pageLoadTimeoutOf 3 : Int) ≠ specPageLoadTimeout 3 := by
  norm_num [pageLoadTimeoutOf, specPageLoadTimeout, round_eq]

/-- C4 (code bug, evaluated at the failing input): with `T = 5` and
slack `ε = 2`, a driver construction that takes 1000s keeps the caller
blocked for 1000s — far past `T + ε` — because `webdriver.Chrome(...)`
runs in the caller before the deadline clock starts, contrary to the
docstring's promise that the timeout covers driver startup. -/
theorem driver_startup_outside_deadline :
    supervisorReturnTime 5 0 1000 0 2 = 1000
    ∧ 5 + 2 < supervisorReturnTime 5 0 1000 0 2 := by
  constructor <;> decide

/-- C9: the advisory memory-availability check never changes the
outcome, trace, or driver operations of a fetch — for any two results
of reading /proc/meminfo (including a failed read or unparseable
content), the supervised fetch behaves identically apart from the
advisory warning text. -/
theorem mem_check_is_advisory (m m' : Except String (List String)) (totalTimeout : Nat)
    (cfg : FetchConfig) (b : Backend) (sb : SupervisorBehavior) :
    (fetchWithTimeout m totalTimeout cfg b sb).outcome
        = (fetchWithTimeout m' totalTimeout cfg b sb).outcome
    ∧ (fetchWithTimeout m totalTimeout cfg b sb).events
        = (fetchWithTimeout m' totalTimeout cfg b sb).events
    ∧ (fetchWithTimeout m totalTimeout cfg b sb).driverOps
        = (fetchWithTimeout m' totalTimeout cfg b sb).driverOps := by
  unfold fetchWithTimeout
  cases hc : b.createDriver <;> by_cases hw : sb.workerHangs <;> simp [hc, hw]

/-- C1 (code bug, evaluated on the whole normal path): whenever the
worker finishes before the deadline (`Completed` or `Failed`), NO
destroy operation is ever issued against the supervisor-created driver
— `_fetch_rendered_inner` skips its `finally`-block quit because
`_driver` was passed (`driver_owned` is false), and `fetch_with_timeout`
performs no quit on the normal path, so the chromedriver process leaks,
contrary to the claim's "destroyed exactly once". -/
theorem normal_completion_destroys_nothing (memLines : Except String (List String))
    (totalTimeout : Nat) (cfg : FetchConfig) (b : Backend) (kr qr : Except String Unit) :
    (fetchWithTimeout memLines totalTimeout cfg b
        { workerHangs := false, killResult := kr, quitResult := qr }).driverOps = [] := by
  rcases hX : innerCore cfg b (pageLoadTimeoutOf totalTimeout) (scriptTimeoutOf totalTimeout) {}
    with ⟨s, r⟩
  have hd := innerCore_destroy cfg b (pageLoadTimeoutOf totalTimeout)
    (scriptTimeoutOf totalTimeout) {}
  rw [hX] at hd
  cases hc : b.createDriver with
  | error e => simp [fetchWithTimeout, hc]
  | ok u =>
    simp [fetchWithTimeout, hc, fetchRenderedInner, hX]
    simpa [destroyOpsOf] using hd

/-- C3: on the timeout path the supervisor issues, in order, a
process-level kill of chromedriver then a best-effort graceful quit,
swallows whatever either raises, and returns the distinct `Expired`
outcome — never any other error kind. -/
theorem timeout_path_kill_then_quit (memLines : Except String (List String))
    (totalTimeout : Nat) (cfg : FetchConfig) (b : Backend) (kr qr : Except String Unit)
    (hc : b.createDriver = .ok ()) :
    (fetchWithTimeout memLines totalTimeout cfg b
        { workerHangs := true, killResult := kr, quitResult := qr }).outcome = Outcome.expired
    ∧ (fetchWithTimeout memLines totalTimeout cfg b
        { workerHangs := true, killResult := kr, quitResult := qr }).driverOps
        = [DriverOp.kill, DriverOp.quit] := by
  simp [fetchWithTimeout, hc, bestEffort]

/-- Witness for C3: a concrete hung fetch (driver creation succeeded,
worker still alive at the deadline, both destroy attempts raising)
yields `Expired` and the kill-then-quit order. -/
theorem timeout_path_kill_then_quit_witness :
    (fetchWithTimeout (.ok []) 60 { url := "http://example" } okBackend
        { workerHangs := true, killResult := .error "no process",
          quitResult := .error "connection refused" }).outcome = Outcome.expired
    ∧ (fetchWithTimeout (.ok []) 60 { url := "http://example" } okBackend
        { workerHangs := true, killResult := .error "no process",
          quitResult := .error "connection refused" }).driverOps
        = [DriverOp.kill, DriverOp.quit] :=
  timeout_path_kill_then_quit (.ok []) 60 { url := "http://example" } okBackend
    (.error "no process") (.error "connection refused") rfl

theorem mem_typeActionEvents (b : Backend) (l : List (String × String)) (a : Event)
    (ha : a ∈ typeActionEvents b l) :
    (∃ sel, a = Event.waitPresence sel) ∨ (∃ sel, a = Event.clearElem sel)
      ∨ (∃ sel val, a = Event.sendKeys sel val) := by
  induction l with
  | nil => cases ha
  | cons p rest ih =>
    obtain ⟨sel, val⟩ := p
    simp only [typeActionEvents] at ha
    rcases List.mem_append.mp ha with h | h
    · cases hw : b.waitPresence sel <;> rw [hw] at h
      · simp at h
        subst h
        exact Or.inl ⟨sel, rfl⟩
      · cases hcl : b.clearElem sel <;> rw [hcl] at h
        · simp at h
          rcases h with h | h
          · subst h; exact Or.inl ⟨sel, rfl⟩
          · subst h; exact Or.inr (Or.inl ⟨sel, rfl⟩)
        · cases hs : b.sendKeys sel val <;> rw [hs] at h <;> simp at h <;>
            rcases h with h | h | h <;> subst h
          · exact Or.inl ⟨sel, rfl⟩
          · exact Or.inr (Or.inl ⟨sel, rfl⟩)
          · exact Or.inr (Or.inr ⟨sel, val, rfl⟩)
          · exact Or.inl ⟨sel, rfl⟩
          · exact Or.inr (Or.inl ⟨sel, rfl⟩)
          · exact Or.inr (Or.inr ⟨sel, val, rfl⟩)
    · exact ih h

theorem mem_clickActionEvents (b : Backend) (l : List String) (a : Event)
    (ha : a ∈ clickActionEvents b l) :
    (∃ sel, a = Event.waitClickable sel) ∨ (∃ sel, a = Event.clickElem sel) := by
  induction l with
  | nil => cases ha
  | cons sel rest ih =>
    simp only [clickActionEvents] at ha
    rcases List.mem_append.mp ha with h | h
    · cases hw : b.waitClickable sel <;> rw [hw] at h
      · simp at h
        subst h
        exact Or.inl ⟨sel, rfl⟩
      · cases hcl : b.clickElem sel <;> rw [hcl] at h <;> simp at h <;>
          rcases h with h | h <;> subst h
        · exact Or.inl ⟨sel, rfl⟩
        · exact Or.inr ⟨sel, rfl⟩
        · exact Or.inl ⟨sel, rfl⟩
        · exact Or.inr ⟨sel, rfl⟩
    · exact ih h

theorem collectReadsOf_append (l1 l2 : List Event) :
    collectReadsOf (l1 ++ l2) = collectReadsOf l1 ++ collectReadsOf l2 := by
  simp [collectReadsOf]

theorem collectReadsOf_typeActionEvents (b : Backend) (l : List (String × String)) :
    collectReadsOf (typeActionEvents b l) = [] := by
  rw [collectReadsOf, List.filterMap_eq_nil_iff]
  intro a ha
  rcases mem_typeActionEvents b l _ ha with ⟨sel, h⟩ | ⟨sel, h⟩ | ⟨sel, val, h⟩ <;> subst h <;> rfl

theorem collectReadsOf_clickActionEvents (b : Backend) (l : List String) :
    collectReadsOf (clickActionEvents b l) = [] := by
  rw [collectReadsOf, List.filterMap_eq_nil_iff]
  intro a ha
  rcases mem_clickActionEvents b l _ ha with ⟨sel, h⟩ | ⟨sel, h⟩ <;> subst h <;> rfl

theorem count_collectReadsOf_source (evs : List Event) :
    evs.count Event.readPageSource = (collectReadsOf evs).count Event.readPageSource := by
  induction evs with
  | nil => rfl
  | cons e t ih => cases e <;> simp [collectReadsOf, List.count_cons, ih]

theorem count_collectReadsOf_browser (evs : List Event) :
    evs.count Event.readBrowserLog = (collectReadsOf evs).count Event.readBrowserLog := by
  induction evs with
  | nil => rfl
  | cons e t ih => cases e <;> simp [collectReadsOf, List.count_cons, ih]

theorem count_collectReadsOf_perf (evs : List Event) :
    evs.count Event.readPerformanceLog = (collectReadsOf evs).count Event.readPerformanceLog := by
  induction evs with
  | nil => rfl
  | cons e t ih => cases e <;> simp [collectReadsOf, List.count_cons, ih]

theorem runTypeActions_events (b : Backend) (l : List (String × String)) (s : St) :
    (runTypeActions b l s).events = s.events ++ typeActionEvents b l := by
  rw [runTypeActions_spec]

theorem runClickActions_events (b : Backend) (l : List String) (s : St) :
    (runClickActions b l s).events = s.events ++ clickActionEvents b l := by
  rw [runClickActions_spec]

theorem collectReadsOf_nil : collectReadsOf [] = [] := rfl

theorem crs_setWindowSize (w h : Nat) (l : List Event) :
    collectReadsOf (Event.setWindowSize w h :: l) = collectReadsOf l := rfl

theorem crs_setPageLoadTimeout (t : Nat) (l : List Event) :
    collectReadsOf (Event.setPageLoadTimeout t :: l) = collectReadsOf l := rfl

theorem crs_setScriptTimeout (t : Nat) (l : List Event) :
    collectReadsOf (Event.setScriptTimeout t :: l) = collectReadsOf l := rfl

theorem crs_navigate (u : String) (l : List Event) :
    collectReadsOf (Event.navigate u :: l) = collectReadsOf l := rfl

theorem crs_execPreJs (c : String) (l : List Event) :
    collectReadsOf (Event.execPreJs c :: l) = collectReadsOf l := rfl

theorem crs_sleepWait (n : Nat) (l : List Event) :
    collectReadsOf (Event.sleepWait n :: l) = collectReadsOf l := rfl

theorem crs_execPostJs (c : String) (l : List Event) :
    collectReadsOf (Event.execPostJs c :: l) = collectReadsOf l := rfl

theorem crs_sleepPostWait (n : Nat) (l : List Event) :
    collectReadsOf (Event.sleepPostWait n :: l) = collectReadsOf l := rfl

theorem crs_readPageSource (l : List Event) :
    collectReadsOf (Event.readPageSource :: l)
      = Event.readPageSource :: collectReadsOf l := rfl

theorem crs_readCurrentUrl (l : List Event) :
    collectReadsOf (Event.readCurrentUrl :: l) = collectReadsOf l := rfl

theorem crs_readBrowserLog (l : List Event) :
    collectReadsOf (Event.readBrowserLog :: l)
      = Event.readBrowserLog :: collectReadsOf l := rfl

theorem crs_readPerformanceLog (l : List Event) :
    collectReadsOf (Event.readPerformanceLog :: l)
      = Event.readPerformanceLog :: collectReadsOf l := rfl

theorem crs_execScrollHeight (l : List Event) :
    collectReadsOf (Event.execScrollHeight :: l) = collectReadsOf l := rfl

theorem crs_resizeForScreenshot (w h : Nat) (l : List Event) :
    collectReadsOf (Event.resizeForScreenshot w h :: l) = collectReadsOf l := rfl

theorem crs_sleepResize (l : List Event) :
    collectReadsOf (Event.sleepResize :: l) = collectReadsOf l := rfl

theorem crs_saveScreenshot (p : String) (l : List Event) :
    collectReadsOf (Event.saveScreenshot p :: l) = collectReadsOf l := rfl

theorem crs_quitDriver (l : List Event) :
    collectReadsOf (Event.quitDriver :: l) = collectReadsOf l := rfl

theorem crs_createDriver (l : List Event) :
    collectReadsOf (Event.createDriver :: l) = collectReadsOf l := rfl

set_option maxHeartbeats 2000000 in
theorem innerCore_collectReads (cfg : FetchConfig) (b : Backend) (plt stTO : Nat) (s0 : St) :
    List.Sublist (collectReadsOf (innerCore cfg b plt stTO s0).1.events)
      (collectReadsOf s0.events
        ++ [Event.readPageSource, Event.readBrowserLog, Event.readPerformanceLog]) := by
  simp only [innerCore, stepE, optStep, condStep]
  repeat' split
  all_goals
    simp only [push_events, runTypeActions_events, runClickActions_events,
      collectReadsOf_append, collectReadsOf_typeActionEvents,
      collectReadsOf_clickActionEvents, collectReadsOf_nil, crs_setWindowSize,
      crs_setPageLoadTimeout, crs_setScriptTimeout, crs_navigate, crs_execPreJs,
      crs_sleepWait, crs_execPostJs, crs_sleepPostWait, crs_readPageSource,
      crs_readCurrentUrl, crs_readBrowserLog, crs_readPerformanceLog,
      crs_execScrollHeight, crs_resizeForScreenshot, crs_sleepResize,
      crs_saveScreenshot, List.append_nil, List.nil_append, List.append_assoc,
      List.singleton_append, List.cons_append]
  all_goals
    first
    | exact List.Sublist.append_left (by decide) _
    | exact List.sublist_append_left _ _

/-- C7: within one pipeline invocation each drain-semantics Collect
read — page source, browser (console) log, performance (network) log —
is issued at most once against the backend, for every configuration
and every backend behaviour, with or without a pre-created driver. -/
theorem collect_reads_at_most_once (cfg : FetchConfig) (b : Backend) (plt stTO : Nat)
    (dp : Bool) :
    ((fetchRenderedInner cfg b plt stTO dp).1.events.count Event.readPageSource ≤ 1)
    ∧ ((fetchRenderedInner cfg b plt stTO dp).1.events.count Event.readBrowserLog ≤ 1)
    ∧ ((fetchRenderedInner cfg b plt stTO dp).1.events.count Event.readPerformanceLog ≤ 1) := by
  have key : ∀ s0 : St, collectReadsOf s0.events = [] →
      ((innerCore cfg b plt stTO s0).1.events.count Event.readPageSource ≤ 1)
      ∧ ((innerCore cfg b plt stTO s0).1.events.count Event.readBrowserLog ≤ 1)
      ∧ ((innerCore cfg b plt stTO s0).1.events.count Event.readPerformanceLog ≤ 1) := by
    intro s0 h0
    have hs := innerCore_collectReads cfg b plt stTO s0
    rw [h0, List.nil_append] at hs
    refine ⟨?_, ?_, ?_⟩
    · rw [count_collectReadsOf_source]
      have hco := hs.count_le Event.readPageSource
      simpa using hco
    · rw [count_collectReadsOf_browser]
      have hco := hs.count_le Event.readBrowserLog
      simpa using hco
    · rw [count_collectReadsOf_perf]
      have hco := hs.count_le Event.readPerformanceLog
      simpa using hco
  cases dp with
  | true => exact key {} rfl
  | false =>
    cases hc : b.createDriver with
    | error e =>
      simp only [fetchRenderedInner, hc, Bool.false_eq_true, if_false]
      decide
    | ok u =>
      rcases hX : innerCore cfg b plt stTO (push {} Event.createDriver) with ⟨s, r⟩
      have hk := key (push {} Event.createDriver) rfl
      rw [hX] at hk
      simp only [fetchRenderedInner, hc, hX, Bool.false_eq_true, if_false]
      refine ⟨?_, ?_, ?_⟩
      · simpa [push_events, List.count_append] using hk.1
      · simpa [push_events, List.count_append] using hk.2.1
      · simpa [push_events, List.count_append] using hk.2.2

theorem runTypeActions_warnings (b : Backend) (l : List (String × String)) (s : St) :
    (runTypeActions b l s).warnings = s.warnings ++ typeWarningsOf b l := by
  rw [runTypeActions_spec]

theorem runClickActions_warnings (b : Backend) (l : List String) (s : St) :
    (runClickActions b l s).warnings = s.warnings ++ clickWarningsOf b l := by
  rw [runClickActions_spec]

theorem typeActionEvents_stages (b : Backend) (l : List (String × String)) :
    (typeActionEvents b l).filterMap stageOf = l.map (fun a => Stage.typeAction a.1) := by
  induction l with
  | nil => rfl
  | cons p rest ih =>
    obtain ⟨sel, val⟩ := p
    simp only [typeActionEvents]
    cases b.waitPresence sel
    · simp [stageOf, ih]
    · cases b.clearElem sel
      · simp [stageOf, ih]
      · cases b.sendKeys sel val <;> simp [stageOf, ih]

theorem clickActionEvents_stages (b : Backend) (l : List String) :
    (clickActionEvents b l).filterMap stageOf = l.map Stage.clickAction := by
  induction l with
  | nil => rfl
  | cons sel rest ih =>
    simp only [clickActionEvents]
    cases b.waitClickable sel
    · simp [stageOf, ih]
    · cases b.clickElem sel <;> simp [stageOf, ih]

theorem sos_nil : ([] : List Event).filterMap stageOf = [] := rfl

theorem sos_createDriver (l : List Event) :
    (Event.createDriver :: l).filterMap stageOf = l.filterMap stageOf := rfl

theorem sos_setWindowSize (w h : Nat) (l : List Event) :
    (Event.setWindowSize w h :: l).filterMap stageOf = l.filterMap stageOf := rfl

theorem sos_setPageLoadTimeout (t : Nat) (l : List Event) :
    (Event.setPageLoadTimeout t :: l).filterMap stageOf = l.filterMap stageOf := rfl

theorem sos_setScriptTimeout (t : Nat) (l : List Event) :
    (Event.setScriptTimeout t :: l).filterMap stageOf = l.filterMap stageOf := rfl

theorem sos_navigate (u : String) (l : List Event) :
    (Event.navigate u :: l).filterMap stageOf = Stage.navigate :: l.filterMap stageOf := rfl

theorem sos_execPreJs (c : String) (l : List Event) :
    (Event.execPreJs c :: l).filterMap stageOf = Stage.preScript :: l.filterMap stageOf := rfl

theorem sos_sleepWait (n : Nat) (l : List Event) :
    (Event.sleepWait n :: l).filterMap stageOf = Stage.fixedWait :: l.filterMap stageOf := rfl

theorem sos_execPostJs (c : String) (l : List Event) :
    (Event.execPostJs c :: l).filterMap stageOf = Stage.postScript :: l.filterMap stageOf := rfl

theorem sos_sleepPostWait (n : Nat) (l : List Event) :
    (Event.sleepPostWait n :: l).filterMap stageOf = Stage.postWait :: l.filterMap stageOf := rfl

theorem sos_readPageSource (l : List Event) :
    (Event.readPageSource :: l).filterMap stageOf = Stage.collectSource :: l.filterMap stageOf := rfl

theorem sos_readCurrentUrl (l : List Event) :
    (Event.readCurrentUrl :: l).filterMap stageOf = l.filterMap stageOf := rfl

theorem sos_readBrowserLog (l : List Event) :
    (Event.readBrowserLog :: l).filterMap stageOf = Stage.collectConsole :: l.filterMap stageOf := rfl

theorem sos_readPerformanceLog (l : List Event) :
    (Event.readPerformanceLog :: l).filterMap stageOf
      = Stage.collectNetwork :: l.filterMap stageOf := rfl

theorem sos_execScrollHeight (l : List Event) :
    (Event.execScrollHeight :: l).filterMap stageOf = l.filterMap stageOf := rfl

theorem sos_resizeForScreenshot (w h : Nat) (l : List Event) :
    (Event.resizeForScreenshot w h :: l).filterMap stageOf = l.filterMap stageOf := rfl

theorem sos_sleepResize (l : List Event) :
    (Event.sleepResize :: l).filterMap stageOf = l.filterMap stageOf := rfl

theorem sos_saveScreenshot (p : String) (l : List Event) :
    (Event.saveScreenshot p :: l).filterMap stageOf = Stage.screenshot :: l.filterMap stageOf := rfl

theorem sos_quitDriver (l : List Event) :
    (Event.quitDriver :: l).filterMap stageOf = l.filterMap stageOf := rfl

set_option maxHeartbeats 4000000 in
theorem innerCore_fatalOk (cfg : FetchConfig) (b : Backend) (plt stTO : Nat) (s0 : St)
    (hb : FatalOk b) :
    (∃ res, (innerCore cfg b plt stTO s0).2 = Except.ok res)
    ∧ (innerCore cfg b plt stTO s0).1.warnings
        = s0.warnings ++ typeWarningsOf b cfg.typeActions ++ clickWarningsOf b cfg.clickActions
    ∧ (innerCore cfg b plt stTO s0).1.events.filterMap stageOf
        = s0.events.filterMap stageOf ++ expectedStages cfg := by
  obtain ⟨htmlv, hhtml⟩ := hb.pageSource
  obtain ⟨curlv, hcurl⟩ := hb.currentUrl
  obtain ⟨blog, hblog⟩ := hb.browserLog
  obtain ⟨plog, hplog⟩ := hb.perfLog
  obtain ⟨shv, hsh⟩ := hb.scrollHeight
  choose fscript hfscript using hb.execScript
  rcases hpre : strTruthy cfg.execJs with _ | preCode <;>
    rcases hpost : strTruthy cfg.postJs with _ | postCode <;>
      rcases hshot : strTruthy cfg.screenshotPath with _ | path <;>
        cases hcc : cfg.captureConsole <;>
          cases hcn : cfg.captureNetwork <;>
            by_cases hpw : cfg.postWaitSeconds > 0
  all_goals
    simp only [innerCore, stepE, optStep, condStep, hb.setWindowSize,
      hb.setPageLoadTimeout, hb.setScriptTimeout, hb.navigate, hb.saveScreenshot,
      hhtml, hcurl, hblog, hplog, hsh, hfscript, hpre, hpost, hshot, hcc, hcn,
      hpw, if_true, if_false, Bool.false_eq_true, ite_true, ite_false]
  all_goals
    simp [push_events, push_warnings, runTypeActions_events, runTypeActions_warnings,
      runClickActions_events, runClickActions_warnings, typeActionEvents_stages,
      clickActionEvents_stages, List.filterMap_append, expectedStages, hpre, hpost,
      hshot, hcc, hcn, hpw, sos_nil, sos_createDriver, sos_setWindowSize,
      sos_setPageLoadTimeout, sos_setScriptTimeout, sos_navigate, sos_execPreJs,
      sos_sleepWait, sos_execPostJs, sos_sleepPostWait, sos_readPageSource,
      sos_readCurrentUrl, sos_readBrowserLog, sos_readPerformanceLog,
      sos_execScrollHeight, sos_resizeForScreenshot, sos_sleepResize,
      sos_saveScreenshot, sos_quitDriver]

theorem mem_typeWarningsOf (b : Backend) (l : List (String × String)) (sel val e : String)
    (hmem : (sel, val) ∈ l) (he : b.waitPresence sel = .error e) :
    typeErrorMsg sel e ∈ typeWarningsOf b l := by
  induction l with
  | nil => cases hmem
  | cons p rest ih =>
    obtain ⟨s1, v1⟩ := p
    rcases List.mem_cons.mp hmem with heq | hmem2
    · cases heq
      simp only [typeWarningsOf, he]
      exact List.mem_append_left _ (List.mem_singleton_self _)
    · simp only [typeWarningsOf]
      exact List.mem_append_right _ (ih hmem2)

theorem mem_clickWarningsOf (b : Backend) (l : List String) (sel e : String)
    (hmem : sel ∈ l) (he : b.waitClickable sel = .error e) :
    clickErrorMsg sel e ∈ clickWarningsOf b l := by
  induction l with
  | nil => cases hmem
  | cons s1 rest ih =>
    rcases List.mem_cons.mp hmem with heq | hmem2
    · cases heq
      simp only [clickWarningsOf, he]
      exact List.mem_append_left _ (List.mem_singleton_self _)
    · simp only [clickWarningsOf]
      exact List.mem_append_right _ (ih hmem2)

theorem okBackend_fatalOk : FatalOk okBackend :=
  ⟨rfl, fun _ _ => rfl, fun _ => rfl, fun _ => rfl, fun _ => rfl,
   fun _ => ⟨none, rfl⟩, ⟨_, rfl⟩, ⟨_, rfl⟩, ⟨_, rfl⟩, ⟨_, rfl⟩, ⟨_, rfl⟩, fun _ => rfl⟩

theorem noElementBackend_fatalOk : FatalOk noElementBackend :=
  ⟨rfl, fun _ _ => rfl, fun _ => rfl, fun _ => rfl, fun _ => rfl,
   fun _ => ⟨none, rfl⟩, ⟨_, rfl⟩, ⟨_, rfl⟩, ⟨_, rfl⟩, ⟨_, rfl⟩, ⟨_, rfl⟩, fun _ => rfl⟩

/-- C5: when nothing fatal fails, an interaction action (type or
click) whose selector wait raises — e.g. never resolves within the 10s
poll — is recorded as a warning and the pipeline continues: the fetch
outcome is still `Completed`, never `Failed` or `Expired`, for every
configuration and every choice of failing interaction calls. -/
theorem interaction_failures_nonfatal (memLines : Except String (List String))
    (totalTimeout : Nat) (cfg : FetchConfig) (b : Backend) (kr qr : Except String Unit)
    (hb : FatalOk b) :
    ((fetchWithTimeout memLines totalTimeout cfg b
        { workerHangs := false, killResult := kr, quitResult := qr }).outcome.isCompleted = true)
    ∧ (∀ sel val e, (sel, val) ∈ cfg.typeActions → b.waitPresence sel = .error e →
        typeErrorMsg sel e ∈ (fetchWithTimeout memLines totalTimeout cfg b
          { workerHangs := false, killResult := kr, quitResult := qr }).warnings)
    ∧ (∀ sel e, sel ∈ cfg.clickActions → b.waitClickable sel = .error e →
        clickErrorMsg sel e ∈ (fetchWithTimeout memLines totalTimeout cfg b
          { workerHangs := false, killResult := kr, quitResult := qr }).warnings) := by
  have hI := innerCore_fatalOk cfg b (pageLoadTimeoutOf totalTimeout)
    (scriptTimeoutOf totalTimeout) {} hb
  rcases hX : innerCore cfg b (pageLoadTimeoutOf totalTimeout)
    (scriptTimeoutOf totalTimeout) {} with ⟨s, r⟩
  rw [hX] at hI
  obtain ⟨⟨res, hres⟩, hw, -⟩ := hI
  simp only at hres hw
  simp only [fetchWithTimeout, hb.createDriver, fetchRenderedInner, hX, hres, if_true,
    Bool.false_eq_true, if_false]
  refine ⟨rfl, ?_, ?_⟩
  · intro sel val e hmem he
    refine List.mem_append_right _ ?_
    rw [hw]
    refine List.mem_append_left _ (List.mem_append_right _ ?_)
    exact mem_typeWarningsOf b cfg.typeActions sel val e hmem he
  · intro sel e hmem he
    refine List.mem_append_right _ ?_
    rw [hw]
    refine List.mem_append_right _ ?_
    exact mem_clickWarningsOf b cfg.clickActions sel e hmem he

/-- Witness for C5: a page with no matching form field or button — the
presence/clickability waits raise — still completes, with both
failures recorded as warnings. -/
theorem interaction_failures_nonfatal_witness :
    ((fetchWithTimeout (.ok []) 60
        { url := "http://example", typeActions := [("#email", "x")],
          clickActions := ["#go"] }
        noElementBackend
        { workerHangs := false, killResult := .ok (),
          quitResult := .ok () }).outcome.isCompleted = true)
    ∧ typeErrorMsg "#email" "no such element" ∈
        (fetchWithTimeout (.ok []) 60
          { url := "http://example", typeActions := [("#email", "x")],
            clickActions := ["#go"] }
          noElementBackend
          { workerHangs := false, killResult := .ok (), quitResult := .ok () }).warnings
    ∧ clickErrorMsg "#go" "not clickable" ∈
        (fetchWithTimeout (.ok []) 60
          { url := "http://example", typeActions := [("#email", "x")],
            clickActions := ["#go"] }
          noElementBackend
          { workerHangs := false, killResult := .ok (), quitResult := .ok () }).warnings := by
  have thm := interaction_failures_nonfatal (.ok []) 60
    { url := "http://example", typeActions := [("#email", "x")], clickActions := ["#go"] }
    noElementBackend (.ok ()) (.ok ()) noElementBackend_fatalOk
  exact ⟨thm.1, thm.2.1 "#email" "x" "no such element" (by simp) rfl,
    thm.2.2 "#go" "not clickable" (by simp) rfl⟩

/-- C6: whenever nothing fatal fails, the pipeline's trace projects to
exactly the fixed stage order — navigate, optional pre-wait script,
fixed wait, the configured type actions in order, the configured click
actions in order, optional post script, optional post-wait delay,
collection (source then console then network logs), and screenshot last
— with each optional stage skipped when not configured, whether or not
the driver was passed in. -/
theorem pipeline_fixed_stage_order (cfg : FetchConfig) (b : Backend) (plt stTO : Nat)
    (dp : Bool) (hb : FatalOk b) :
    (fetchRenderedInner cfg b plt stTO dp).1.events.filterMap stageOf
      = expectedStages cfg := by
  cases dp with
  | true =>
    have hI := innerCore_fatalOk cfg b plt stTO {} hb
    simpa [fetchRenderedInner] using hI.2.2
  | false =>
    have hI := innerCore_fatalOk cfg b plt stTO (push {} Event.createDriver) hb
    rcases hX : innerCore cfg b plt stTO (push {} Event.createDriver) with ⟨s, r⟩
    rw [hX] at hI
    obtain ⟨-, -, hs⟩ := hI
    simp only at hs
    simp only [fetchRenderedInner, hb.createDriver, hX, Bool.false_eq_true, if_false]
    simp only [push_events, List.filterMap_append, sos_quitDriver, sos_nil, List.append_nil]
    rw [hs]
    simp [push_events, sos_createDriver, sos_nil]

/-- Witness for C6: a fully-configured fetch against an
instantly-responding backend produces exactly the spec's stage list. -/
theorem pipeline_fixed_stage_order_witness :
    (fetchRenderedInner
        { url := "http://example", execJs := some "console.log(1)",
          postJs := some "window.scrollTo(0, 9)", screenshotPath := some "/tmp/s.png",
          captureConsole := true, captureNetwork := true, postWaitSeconds := 2,
          typeActions := [("#email", "x")], clickActions := ["#go"] }
        okBackend 36 15 true).1.events.filterMap stageOf
      = expectedStages
        { url := "http://example", execJs := some "console.log(1)",
          postJs := some "window.scrollTo(0, 9)", screenshotPath := some "/tmp/s.png",
          captureConsole := true, captureNetwork := true, postWaitSeconds := 2,
          typeActions := [("#email", "x")], clickActions := ["#go"] } :=
  pipeline_fixed_stage_order
    { url := "http://example", execJs := some "console.log(1)",
      postJs := some "window.scrollTo(0, 9)", screenshotPath := some "/tmp/s.png",
      captureConsole := true, captureNetwork := true, postWaitSeconds := 2,
      typeActions := [("#email", "x")], clickActions := ["#go"] }
    okBackend 36 15 true okBackend_fatalOk

/-- C8: the CLI exits 0 on success, 1 on a generic error or a missing
URL (including no arguments at all), and 2 when the hard deadline is
exceeded; the timeout exit code is distinct from the generic one. -/
theorem cli_exit_codes (a0 a1 : String) (rest : List String)
    (rf : String → Except String String) (c : CliConfig)
    (hhelp : ¬ (a1 = "-h" ∨ a1 = "--help"))
    (hparse : parseArgs rf (a1 :: rest) {} = .ok c) :
    (c.url.isSome →
        mainExitCode (a0 :: a1 :: rest) rf .success = 0
        ∧ mainExitCode (a0 :: a1 :: rest) rf .timedOut = 2
        ∧ mainExitCode (a0 :: a1 :: rest) rf .genericError = 1)
    ∧ (c.url = none → ∀ o, mainExitCode (a0 :: a1 :: rest) rf o = 1)
    ∧ (∀ p o, mainExitCode [p] rf o = 1) := by
  refine ⟨?_, ?_, fun p o => rfl⟩
  · intro hsome
    obtain ⟨u, hu⟩ := Option.isSome_iff_exists.mp hsome
    refine ⟨?_, ?_, ?_⟩ <;> simp [mainExitCode, hhelp, hparse, hu]
  · intro hnone o
    simp [mainExitCode, hhelp, hparse, hnone]

/-- Witness for C8: a plain URL invocation exits 0 / 2 / 1 as the
fetch succeeds, times out, or fails. -/
theorem cli_exit_codes_witness :
    mainExitCode ["js-web-renderer", "http://x"] (fun _ => .error "ENOENT") .success = 0
    ∧ mainExitCode ["js-web-renderer", "http://x"] (fun _ => .error "ENOENT") .timedOut = 2
    ∧ mainExitCode ["js-web-renderer", "http://x"] (fun _ => .error "ENOENT") .genericError = 1 :=
  (cli_exit_codes "js-web-renderer" "http://x" [] (fun _ => .error "ENOENT")
      { url := some "http://x" } (by decide)
      (by simp [parseArgs, startsWithDash])).1 (by decide)

theorem typeActionEvents_perfLog (b : Backend) (X : Except String (List RawPerfEntry))
    (l : List (String × String)) :
    typeActionEvents { b with perfLog := X } l = typeActionEvents b l := by
  induction l with
  | nil => rfl
  | cons p rest ih =>
    obtain ⟨sel, val⟩ := p
    simp only [typeActionEvents, ih]

theorem typeWarningsOf_perfLog (b : Backend) (X : Except String (List RawPerfEntry))
    (l : List (String × String)) :
    typeWarningsOf { b with perfLog := X } l = typeWarningsOf b l := by
  induction l with
  | nil => rfl
  | cons p rest ih =>
    obtain ⟨sel, val⟩ := p
    simp only [typeWarningsOf, ih]

theorem clickActionEvents_perfLog (b : Backend) (X : Except String (List RawPerfEntry))
    (l : List String) :
    clickActionEvents { b with perfLog := X } l = clickActionEvents b l := by
  induction l with
  | nil => rfl
  | cons sel rest ih => simp only [clickActionEvents, ih]

theorem clickWarningsOf_perfLog (b : Backend) (X : Except String (List RawPerfEntry))
    (l : List String) :
    clickWarningsOf { b with perfLog := X } l = clickWarningsOf b l := by
  induction l with
  | nil => rfl
  | cons sel rest ih => simp only [clickWarningsOf, ih]

theorem runTypeActions_perfLog (b : Backend) (X : Except String (List RawPerfEntry))
    (l : List (String × String)) (s : St) :
    runTypeActions { b with perfLog := X } l s = runTypeActions b l s := by
  rw [runTypeActions_spec, runTypeActions_spec, typeActionEvents_perfLog,
    typeWarningsOf_perfLog]

theorem runClickActions_perfLog (b : Backend) (X : Except String (List RawPerfEntry))
    (l : List String) (s : St) :
    runClickActions { b with perfLog := X } l s = runClickActions b l s := by
  rw [runClickActions_spec, runClickActions_spec, clickActionEvents_perfLog,
    clickWarningsOf_perfLog]

theorem collectNetworkRequests_middle (l1 l2 : List RawPerfEntry) :
    collectNetworkRequests (l1 ++ RawPerfEntry.malformed :: l2)
      = collectNetworkRequests (l1 ++ l2) := by
  simp [collectNetworkRequests, parsePerfEntry]

/-- C10: every `network_requests` entry is tagged `"request"` or
`"response"`; the collection is the order-preserving filter of the
performance log (an element's contribution sits exactly between its
neighbours' contributions); and a malformed entry is skipped silently —
the whole pipeline run is unchanged by its presence. -/
theorem network_requests_shape :
    (∀ perf, ∀ x ∈ collectNetworkRequests perf,
        x.type = "request" ∨ x.type = "response")
    ∧ (∀ l1 a l2, collectNetworkRequests (l1 ++ a :: l2)
        = collectNetworkRequests l1 ++ (parsePerfEntry a).toList
            ++ collectNetworkRequests l2)
    ∧ (∀ (cfg : FetchConfig) (b : Backend) (plt stTO : Nat) (dp : Bool)
          (l1 l2 : List RawPerfEntry),
        fetchRenderedInner cfg
            { b with perfLog := .ok (l1 ++ RawPerfEntry.malformed :: l2) } plt stTO dp
          = fetchRenderedInner cfg { b with perfLog := .ok (l1 ++ l2) } plt stTO dp) := by
  refine ⟨?_, ?_, ?_⟩
  · intro perf x hx
    obtain ⟨a, -, hpa⟩ := List.mem_filterMap.mp hx
    cases a with
    | malformed => cases hpa
    | msg method req resp =>
      by_cases h1 : method = "Network.requestWillBeSent"
      · rw [parsePerfEntry, if_pos h1] at hpa
        cases hpa
        left
        rfl
      · by_cases h2 : method = "Network.responseReceived"
        · rw [parsePerfEntry, if_neg h1, if_pos h2] at hpa
          cases hpa
          right
          rfl
        · rw [parsePerfEntry, if_neg h1, if_neg h2] at hpa
          cases hpa
  · intro l1 a l2
    cases hpa : parsePerfEntry a <;> simp [collectNetworkRequests, hpa]
  · intro cfg b plt stTO dp l1 l2
    simp only [fetchRenderedInner, innerCore, stepE, optStep, condStep,
      collectNetworkRequests_middle, runTypeActions_perfLog, runClickActions_perfLog]

/-- Witness for C10: a request-typed entry parsed from a small log is
tagged `"request"`. -/
theorem network_requests_shape_witness :
    ({ type := "request", url := "http://a", method := "GET",
       resourceType := "xhr" } : NetworkEntry).type = "request"
    ∨ ({ type := "request", url := "http://a", method := "GET",
         resourceType := "xhr" } : NetworkEntry).type = "response" :=
  network_requests_shape.1
    [RawPerfEntry.malformed,
     RawPerfEntry.msg "Network.requestWillBeSent"
       { url := "http://a", method := "GET", resourceType := "xhr" } {}]
    { type := "request", url := "http://a", method := "GET", resourceType := "xhr" }
    (by decide)

end JsWebRenderer
